import Mathlib

/-!
# Verification of the NetX Secure TLS excerpt

Shallow embedding of the two source functions of this repository:

* `_nx_secure_tls_process_client_key_exchange`
  (src/Middlewares/ST/netxduo/nx_secure/src/nx_secure_tls_process_client_key_exchange.c)
* `_nx_secure_tls_session_receive` (src/unnamed/part_000)

Machine bytes (`UCHAR`) are modelled as `Nat` reduced `% 256` at every read,
`UINT`/`USHORT` values as `Nat`.  The value of `length - 48 - 1` used by the
PKCS#1 padding inspection is computed in `Int`, mirroring the C integer
promotion of the `USHORT` operand (for `length < 49` the C expression is a
negative `int` index).  External collaborators (crypto provider, certificate
store, random generator, record receiver, handshake processor) are oracles
carried in environment records; each oracle field models the status returned
by, and the buffer contents left by, the corresponding external call.

Numeric values of the `NX_SECURE_TLS_*` error codes and of the TLS state
constants live in headers that are not part of the excerpt; they are given
arbitrary distinct values here (only their distinctness is used).
-/

/-- Success status (`NX_SUCCESS` / `NX_CRYPTO_SUCCESS` are both zero). -/
def NX_SUCCESS : Nat := 0

/-- `NX_CRYPTO_SUCCESS`. -/
def NX_CRYPTO_SUCCESS : Nat := 0

def NX_SECURE_TLS_UNKNOWN_CIPHERSUITE : Nat := 101

def NX_SECURE_TLS_INCORRECT_MESSAGE_LENGTH : Nat := 102

def NX_SECURE_TLS_CERTIFICATE_NOT_FOUND : Nat := 103

def NX_SECURE_TLS_UNSUPPORTED_ECC_CURVE : Nat := 104

def NX_SECURE_TLS_MISSING_CRYPTO_ROUTINE : Nat := 105

def NX_SECURE_TLS_UNSUPPORTED_PUBLIC_CIPHER : Nat := 106

def NX_SECURE_TLS_INVALID_STATE : Nat := 107

def NX_SECURE_TLS_POST_HANDSHAKE_RECEIVED : Nat := 108

/-- `TLS_NULL_WITH_NULL_NULL` (its real wire value, 0x0000). -/
def TLS_NULL_WITH_NULL_NULL : Nat := 0

/-- `NX_SECURE_TLS_X509_TYPE_RSA` (symbolic value). -/
def NX_SECURE_TLS_X509_TYPE_RSA : Nat := 1

/-- `NX_SECURE_TLS_RSA_PREMASTER_SIZE` (48 bytes). -/
def NX_SECURE_TLS_RSA_PREMASTER_SIZE : Nat := 48

/-- Capacity of `nx_secure_tls_pre_master_secret`.  Modelled from the spec:
the key-material premaster buffer has a fixed maximum size; the RSA premaster
constant (48) is taken as that capacity. -/
def NX_SECURE_TLS_PREMASTER_SIZE : Nat := 48

/-- Size of the file-local static buffer `_nx_secure_client_padded_pre_master`. -/
def paddedPreMasterSize : Nat := 600

/-- Read byte `i` of a buffer (`UCHAR` access: value reduced mod 256;
bytes outside the modelled contents read as 0). -/
def byteAt (l : List Nat) (i : Nat) : Nat := l.getD i 0 % 256

/-- `n` consecutive bytes of `l` starting at offset `off`. -/
def readBytes (l : List Nat) (off n : Nat) : List Nat :=
  (List.range n).map (fun i => byteAt l (off + i))

/-- The two-byte big-endian length field `(packet_buffer[0] << 8) + packet_buffer[1]`. -/
def declared16 (msg : List Nat) : Nat := byteAt msg 0 * 256 + byteAt msg 1

/-- The C `int` value of `length - NX_SECURE_TLS_RSA_PREMASTER_SIZE - 1`, the
index used by the PKCS#1 padding inspection (the `USHORT` operand is promoted
to `int`, so the subtraction is a signed one). -/
def padByteIndex (len : Nat) : Int :=
  (len : Int) - (NX_SECURE_TLS_RSA_PREMASTER_SIZE : Int) - 1

/-- Read of the padded scratch buffer at a C `int` index.  An index outside
`[0, 600)` is an out-of-bounds access of `_nx_secure_client_padded_pre_master`
(undefined behaviour in the C source); the model returns 0 there. -/
def scratchGetI (s : List Nat) (i : Int) : Nat :=
  if 0 ≤ i ∧ i < (paddedPreMasterSize : Int) then byteAt s i.toNat else 0

/-- The condition of the padding inspection at source lines 510-512:
`buf[0] != 0x00 || buf[1] != 0x02 || buf[length - 48 - 1] != 0x00`. -/
def paddingBad (s : List Nat) (len : Nat) : Bool :=
  byteAt s 0 != 0x00 || byteAt s 1 != 0x02 || scratchGetI s (padByteIndex len) != 0x00

/-- Key-exchange algorithm selector of an `NX_CRYPTO_METHOD`
(`nx_crypto_algorithm`). -/
inductive CryptoAlg where
  | ecjpake
  | psk
  | ecdh
  | ecdhe
  | rsa
  | nullAlg
  | other
deriving DecidableEq, Repr

/-- The fields of `NX_SECURE_TLS_CIPHERSUITE_INFO` consulted by the excerpt.
The `has...` booleans model whether the corresponding function pointer of the
public-cipher (respectively public-auth) `NX_CRYPTO_METHOD` is non-NULL. -/
structure Ciphersuite where
  suiteId : Nat
  publicCipherAlg : CryptoAlg
  publicAuthAlg : CryptoAlg
  pubCipherHasInit : Bool
  pubCipherHasOp : Bool
  pubCipherHasCleanup : Bool
  pubAuthHasCleanup : Bool
deriving DecidableEq, Repr

/-- The fields of `NX_SECURE_X509_CERT` consulted by the excerpt.
`userDefinedKey` models the test at source lines 367-371
(`(private_key_type & NX_SECURE_X509_KEY_TYPE_USER_DEFINED_MASK) != 0 ||
private_key_type == NX_SECURE_X509_KEY_TYPE_HARDWARE`; the numeric constants
live in a header outside the excerpt, so the boolean outcome is the field). -/
structure Certificate where
  userDefinedKey : Bool
  publicAlgorithm : Nat
  ecNamedCurve : Nat
  hasPrimeP : Bool
  hasPrimeQ : Bool
deriving DecidableEq, Repr

/-- The key-material fields touched by the excerpt: the premaster secret
buffer, its recorded length, and (for the ECDHE path) the named curve stored
in the ephemeral handshake data. -/
structure KeyMaterial where
  preMaster : List Nat
  preMasterSize : Nat
  ecdheCurve : Nat
deriving DecidableEq, Repr

/-- The session fields consulted by the key-exchange processor. -/
structure Session where
  ciphersuite : Option Ciphersuite
  activeCert : Option Certificate
  keyMaterial : KeyMaterial
deriving DecidableEq, Repr

/-- Build-profile switches (`NX_SECURE_KEY_CLEAR`,
`NX_SECURE_TLS_SERVER_DISABLED`). -/
structure Config where
  keyClear : Bool
  serverDisabled : Bool
deriving DecidableEq, Repr

/-- External calls made by the key-exchange processor, in order. -/
inductive Ev where
  | certLookup
  | findCurve
  | cryptoInit
  | cryptoOp
  | cryptoCleanup
  | pskGen
deriving DecidableEq, Repr

/-- Oracles for the external collaborators of the key-exchange processor.
Buffer-valued fields give the contents the external call leaves in the
buffer it writes (the call receives a pointer, so the contents after the call
are the callee's choice, whatever status it returns).  `rng` is the `NX_RAND`
draw stream; `rngLive` states that it keeps producing nonzero bytes, which is
exactly the termination condition of the `do {} while (rand_byte == 0)` loop
at source lines 526-529. -/
structure Env where
  rng : Nat → Nat
  rngLive : ∀ c, ∃ k, rng (c + k) % 256 ≠ 0
  ecjpakeOpStatus : Nat
  ecjpakeOut : List Nat
  ecjpakeCleanup : Nat
  pskStatus : Nat
  pskKM : KeyMaterial
  storeCert : Option Certificate
  findCurve : Nat → Nat × Bool
  ecInit : Nat
  ecCurveSet : Nat
  ecImport : Nat
  dhCalcStatus : Nat
  dhCalcOut : List Nat
  dhCalcActual : Nat
  ecCleanup : Nat
  rsaUserOpStatus : Nat
  rsaUserOpScratch : List Nat
  rsaInit : Nat
  rsaSetP : Nat
  rsaSetQ : Nat
  rsaDecStatus : Nat
  rsaDecScratch : List Nat
  rsaCleanup : Nat

/-- Observable outcome of one key-exchange processor call: returned status,
key material, contents of the static padded scratch buffer after the return,
and the trace of external calls. -/
structure KXResult where
  status : Nat
  km : KeyMaterial
  scratch : List Nat
  trace : List Ev
deriving DecidableEq, Repr

/-- One `NX_RAND()` draw repeated until its `UCHAR` cast is nonzero
(source lines 526-529): returns the byte and the next draw counter. -/
def nzDraw (env : Env) (c : Nat) : Nat × Nat :=
  let k := Nat.find (env.rngLive c)
  (env.rng (c + k) % 256, c + k + 1)

/-- The random-premaster loop of source lines 522-531: `n` nonzero random
bytes, drawn starting at counter `c`. -/
def fillRandom (env : Env) : Nat → Nat → List Nat
  | _, 0 => []
  | c, n + 1 =>
    let d := nzDraw env c
    d.1 :: fillRandom env d.2 n

/-- Source lines 550-560: optional clearing of the padded scratch buffer,
then the `NX_SECURE_TLS_SERVER_DISABLED` terminal condition. -/
def finalize (cfg : Config) (km : KeyMaterial) (scratch : List Nat)
    (tr : List Ev) : KXResult :=
  let scr := if cfg.keyClear then List.replicate paddedPreMasterSize 0 else scratch
  if cfg.serverDisabled then ⟨NX_SECURE_TLS_INVALID_STATE, km, scr, tr⟩
  else ⟨NX_SUCCESS, km, scr, tr⟩

/-- Source lines 508-541: the PKCS#1 padding inspection on the decrypted
scratch contents, then either the random-premaster countermeasure or the
extraction of the final 48 bytes; the recorded size is set to 48 on both
branches (line 541). -/
def paddingPhase (cfg : Config) (env : Env) (km : KeyMaterial) (len : Nat)
    (scratch : List Nat) (tr : List Ev) : KXResult :=
  let km2 :=
    if paddingBad scratch len then
      { km with preMaster := fillRandom env 0 NX_SECURE_TLS_RSA_PREMASTER_SIZE,
                preMasterSize := NX_SECURE_TLS_RSA_PREMASTER_SIZE }
    else
      { km with
          preMaster :=
            readBytes scratch (len - NX_SECURE_TLS_RSA_PREMASTER_SIZE)
              NX_SECURE_TLS_RSA_PREMASTER_SIZE,
          preMasterSize := NX_SECURE_TLS_RSA_PREMASTER_SIZE }
  finalize cfg km2 scratch tr

/-- Source lines 493-505: optional `nx_crypto_cleanup`; on its failure the
scratch buffer is cleared (under `NX_SECURE_KEY_CLEAR`) and the status
returned. -/
def rsaCleanupStep (cfg : Config) (env : Env) (km : KeyMaterial) (len : Nat)
    (scratch : List Nat) (cs : Ciphersuite) (tr : List Ev) : KXResult :=
  if cs.pubCipherHasCleanup then
    let tr1 := tr ++ [Ev.cryptoCleanup]
    if env.rsaCleanup ≠ NX_CRYPTO_SUCCESS then
      ⟨env.rsaCleanup, km,
        (if cfg.keyClear then List.replicate paddedPreMasterSize 0 else scratch), tr1⟩
    else paddingPhase cfg env km len scratch tr1
  else paddingPhase cfg env km len scratch tr

/-- Source lines 470-491: the `NX_CRYPTO_DECRYPT` operation into the padded
scratch buffer. -/
def rsaDecStep (cfg : Config) (env : Env) (km : KeyMaterial) (len : Nat)
    (cs : Ciphersuite) (tr : List Ev) : KXResult :=
  let tr1 := tr ++ [Ev.cryptoOp]
  if env.rsaDecStatus ≠ NX_CRYPTO_SUCCESS then
    ⟨env.rsaDecStatus, km, env.rsaDecScratch, tr1⟩
  else rsaCleanupStep cfg env km len env.rsaDecScratch cs tr1

/-- Source lines 419-491: the operation block of the parsed-key path
(optional CRT primes, then decryption; skipped entirely when the method has
no `nx_crypto_operation`). -/
def rsaOpBlock (cfg : Config) (env : Env) (km : KeyMaterial) (len : Nat)
    (scratch0 : List Nat) (cs : Ciphersuite) (cert : Certificate)
    (tr : List Ev) : KXResult :=
  if cs.pubCipherHasOp then
    if cert.hasPrimeP ∧ cert.hasPrimeQ then
      if env.rsaSetP ≠ NX_CRYPTO_SUCCESS then
        ⟨env.rsaSetP, km, scratch0, tr ++ [Ev.cryptoOp]⟩
      else if env.rsaSetQ ≠ NX_CRYPTO_SUCCESS then
        ⟨env.rsaSetQ, km, scratch0, tr ++ [Ev.cryptoOp, Ev.cryptoOp]⟩
      else rsaDecStep cfg env km len cs (tr ++ [Ev.cryptoOp, Ev.cryptoOp])
    else rsaDecStep cfg env km len cs tr
  else rsaCleanupStep cfg env km len scratch0 cs tr

/-- Source lines 400-506: the parsed-RSA-key path (optional `nx_crypto_init`
with the public modulus, then the operation block). -/
def rsaParsedKey (cfg : Config) (env : Env) (km : KeyMaterial) (len : Nat)
    (scratch0 : List Nat) (cs : Ciphersuite) (cert : Certificate)
    (tr : List Ev) : KXResult :=
  if cs.pubCipherHasInit then
    let tr1 := tr ++ [Ev.cryptoInit]
    if env.rsaInit ≠ NX_CRYPTO_SUCCESS then ⟨env.rsaInit, km, scratch0, tr1⟩
    else rsaOpBlock cfg env km len scratch0 cs cert tr1
  else rsaOpBlock cfg env km len scratch0 cs cert tr

/-- Source lines 377-541: the RSA-specific section (user-defined/hardware key
in a single provider call, or the parsed-key path), ending in the padding
inspection. -/
def rsaSection (cfg : Config) (env : Env) (km : KeyMaterial) (len : Nat)
    (scratch0 : List Nat) (cs : Ciphersuite) (cert : Certificate)
    (tr : List Ev) : KXResult :=
  if cert.userDefinedKey then
    let tr1 := tr ++ [Ev.cryptoOp]
    if env.rsaUserOpStatus ≠ NX_CRYPTO_SUCCESS then
      ⟨env.rsaUserOpStatus, km, env.rsaUserOpScratch, tr1⟩
    else paddingPhase cfg env km len env.rsaUserOpScratch tr1
  else rsaParsedKey cfg env km len scratch0 cs cert tr

/-- Source lines 325-548: the certificate-based branch.  The two-byte length
field is checked against the caller's `message_length`; the NULL-ciphersuite
special case copies (and possibly truncates) the plaintext bytes, and control
then falls through to the certificate lookup and the RSA dispatch (the NULL
block at lines 341-350 has no `else`). -/
def certBranch (cfg : Config) (env : Env) (km : KeyMaterial) (msg : List Nat)
    (L : Nat) (scratch0 : List Nat) (cs : Ciphersuite) : KXResult :=
  let declared := declared16 msg
  if declared > L then
    ⟨NX_SECURE_TLS_INCORRECT_MESSAGE_LENGTH, km, scratch0, []⟩
  else
    let copyLen := min declared NX_SECURE_TLS_PREMASTER_SIZE
    let km1 :=
      if cs.suiteId = TLS_NULL_WITH_NULL_NULL then
        { km with
            preMaster := readBytes msg 2 copyLen ++ km.preMaster.drop copyLen,
            preMasterSize := copyLen }
      else km
    let len1 := if cs.suiteId = TLS_NULL_WITH_NULL_NULL then copyLen else declared
    match env.storeCert with
    | none => ⟨NX_SECURE_TLS_CERTIFICATE_NOT_FOUND, km1, scratch0, [Ev.certLookup]⟩
    | some cert =>
      if cs.publicCipherAlg = CryptoAlg.rsa ∧
         cert.publicAlgorithm = NX_SECURE_TLS_X509_TYPE_RSA then
        rsaSection cfg env km1 len1 scratch0 cs cert [Ev.certLookup]
      else ⟨NX_SECURE_TLS_UNSUPPORTED_PUBLIC_CIPHER, km1, scratch0, [Ev.certLookup]⟩

/-- Source lines 254-321: the crypto-provider calls of the EC branch
(optional init, curve set, key import, shared-secret computation writing the
premaster buffer through the extended output, optional cleanup). -/
def ecOps (cfg : Config) (env : Env) (km : KeyMaterial) (scratch0 : List Nat)
    (cs : Ciphersuite) (tr : List Ev) : KXResult :=
  let trI := if cs.pubCipherHasInit then tr ++ [Ev.cryptoInit] else tr
  if cs.pubCipherHasInit ∧ env.ecInit ≠ NX_CRYPTO_SUCCESS then
    ⟨env.ecInit, km, scratch0, trI⟩
  else if env.ecCurveSet ≠ NX_CRYPTO_SUCCESS then
    ⟨env.ecCurveSet, km, scratch0, trI ++ [Ev.cryptoOp]⟩
  else if env.ecImport ≠ NX_CRYPTO_SUCCESS then
    ⟨env.ecImport, km, scratch0, trI ++ [Ev.cryptoOp, Ev.cryptoOp]⟩
  else
    let trD := trI ++ [Ev.cryptoOp, Ev.cryptoOp, Ev.cryptoOp]
    let km1 := { km with preMaster := env.dhCalcOut }
    if env.dhCalcStatus ≠ NX_CRYPTO_SUCCESS then ⟨env.dhCalcStatus, km1, scratch0, trD⟩
    else
      let km2 := { km1 with preMasterSize := env.dhCalcActual }
      if cs.pubCipherHasCleanup then
        if env.ecCleanup ≠ NX_CRYPTO_SUCCESS then
          ⟨env.ecCleanup, km2, scratch0, trD ++ [Ev.cryptoCleanup]⟩
        else finalize cfg km2 scratch0 (trD ++ [Ev.cryptoCleanup])
      else finalize cfg km2 scratch0 trD

/-- Source lines 189-240: selection of the named curve — from the active (or
store-provided) local certificate for static ECDH, from the ephemeral
handshake data for ECDHE.  Returns the curve identifier and the
certificate-store trace, or the early certificate-not-found return. -/
def ecCurveSelect (env : Env) (sess : Session) (cs : Ciphersuite)
    (scratch0 : List Nat) : Except KXResult (Nat × List Ev) :=
  if cs.publicCipherAlg = CryptoAlg.ecdh then
    match sess.activeCert with
    | some cert => .ok (cert.ecNamedCurve, [])
    | none =>
      match env.storeCert with
      | some cert => .ok (cert.ecNamedCurve, [Ev.certLookup])
      | none =>
        .error ⟨NX_SECURE_TLS_CERTIFICATE_NOT_FOUND, sess.keyMaterial, scratch0,
          [Ev.certLookup]⟩
  else .ok (sess.keyMaterial.ecdheCurve, [])

/-- Source lines 177-322: the ECDH/ECDHE branch.  The one-byte public-key
length field is checked against `message_length`; the curve lookup
`_nx_secure_tls_find_curve_method` is a repository function outside the
excerpt, modelled as the oracle `env.findCurve` returning its status and
whether a curve method was found. -/
def ecBranch (cfg : Config) (env : Env) (sess : Session) (msg : List Nat)
    (L : Nat) (scratch0 : List Nat) (cs : Ciphersuite) : KXResult :=
  let km := sess.keyMaterial
  let pkLen := byteAt msg 0
  if pkLen > L then
    ⟨NX_SECURE_TLS_INCORRECT_MESSAGE_LENGTH, km, scratch0, []⟩
  else
    match ecCurveSelect env sess cs scratch0 with
    | .error r => r
    | .ok (curveId, tr0) =>
      let fc := env.findCurve curveId
      let tr1 := tr0 ++ [Ev.findCurve]
      if fc.1 ≠ NX_SUCCESS then ⟨fc.1, km, scratch0, tr1⟩
      else if fc.2 = false then
        ⟨NX_SECURE_TLS_UNSUPPORTED_ECC_CURVE, km, scratch0, tr1⟩
      else if cs.pubCipherHasOp = false then
        ⟨NX_SECURE_TLS_MISSING_CRYPTO_ROUTINE, km, scratch0, tr1⟩
      else ecOps cfg env km scratch0 cs tr1

/-- Source lines 125-159: the ECJPAKE branch (premaster size fixed to 32
before the combined client-key-exchange operation writes the premaster). -/
def ecjpakeBranch (cfg : Config) (env : Env) (km : KeyMaterial)
    (scratch0 : List Nat) (cs : Ciphersuite) : KXResult :=
  let km1 := { km with preMasterSize := 32, preMaster := env.ecjpakeOut }
  if env.ecjpakeOpStatus ≠ NX_CRYPTO_SUCCESS then
    ⟨env.ecjpakeOpStatus, km1, scratch0, [Ev.cryptoOp]⟩
  else if cs.pubAuthHasCleanup then
    if env.ecjpakeCleanup ≠ NX_CRYPTO_SUCCESS then
      ⟨env.ecjpakeCleanup, km1, scratch0, [Ev.cryptoOp, Ev.cryptoCleanup]⟩
    else finalize cfg km1 scratch0 [Ev.cryptoOp, Ev.cryptoCleanup]
  else finalize cfg km1 scratch0 [Ev.cryptoOp]

/-- Source lines 164-174: the PSK branch delegates to
`_nx_secure_tls_generate_premaster_secret`, a repository function outside the
excerpt, modelled as the oracle pair `env.pskStatus` / `env.pskKM`. -/
def pskBranch (cfg : Config) (env : Env) (scratch0 : List Nat) : KXResult :=
  if env.pskStatus ≠ NX_SUCCESS then ⟨env.pskStatus, env.pskKM, scratch0, [Ev.pskGen]⟩
  else finalize cfg env.pskKM scratch0 [Ev.pskGen]

/-- `_nx_secure_tls_process_client_key_exchange` (source lines 89-561),
with every `#ifdef`-guarded ciphersuite family compiled in and the
`NX_SECURE_KEY_CLEAR` / `NX_SECURE_TLS_SERVER_DISABLED` switches carried in
`cfg`.  `msg` is the message buffer, `L` the caller's `message_length`,
`scratch0` the contents of the static padded scratch buffer at entry. -/
def _nx_secure_tls_process_client_key_exchange (cfg : Config) (env : Env)
    (sess : Session) (msg : List Nat) (L : Nat) (scratch0 : List Nat) : KXResult :=
  match sess.ciphersuite with
  | none => ⟨NX_SECURE_TLS_UNKNOWN_CIPHERSUITE, sess.keyMaterial, scratch0, []⟩
  | some cs =>
    if cs.publicAuthAlg = CryptoAlg.ecjpake then
      ecjpakeBranch cfg env sess.keyMaterial scratch0 cs
    else if cs.publicAuthAlg = CryptoAlg.psk then pskBranch cfg env scratch0
    else if cs.publicCipherAlg = CryptoAlg.ecdh ∨
            cs.publicCipherAlg = CryptoAlg.ecdhe then
      ecBranch cfg env sess msg L scratch0 cs
    else certBranch cfg env sess.keyMaterial msg L scratch0 cs

/-! ## The record receiver `_nx_secure_tls_session_receive` -/

/-- `NX_SECURE_TLS_CLIENT_STATE_RENEGOTIATING` (symbolic value). -/
def NX_SECURE_TLS_CLIENT_STATE_RENEGOTIATING : Nat := 21

/-- `NX_SECURE_TLS_SERVER_STATE_HELLO_REQUEST` (symbolic value). -/
def NX_SECURE_TLS_SERVER_STATE_HELLO_REQUEST : Nat := 22

/-- `nx_secure_tls_socket_type`. -/
inductive SockType where
  | client
  | server
deriving DecidableEq, Repr

/-- The session fields consulted by `_nx_secure_tls_session_receive`. -/
structure RSession where
  sockType : SockType
  clientState : Nat
  serverState : Nat
deriving DecidableEq, Repr

/-- Oracles for the two callees of the record receiver.
`recvStatus i` / `recvFlag i` are the status returned by the `i`-th call to
`_nx_secure_tls_session_receive_records` and the value of the session's
`nx_secure_tls_renegotiation_handshake` flag right after that call (the callee
may set the flag while processing records).  `recvLive` states that the fetch
stream eventually yields a status other than post-handshake-received, which is
exactly the termination condition of the `while` loop at source lines 326-329.
`hsStatus` / `hsFlag` are the status of `_nx_secure_tls_handshake_process` and
the flag value after it (the receiver itself clears the flag before the
handshake runs). -/
structure RecvEnv where
  recvStatus : Nat → Nat
  recvFlag : Nat → Bool
  recvLive : ∃ k, recvStatus k ≠ NX_SECURE_TLS_POST_HANDSHAKE_RECEIVED
  hsStatus : Nat
  hsFlag : Bool

/-- Observable outcome of one `_nx_secure_tls_session_receive` call: the
returned status, the number of record-fetch calls made, the number of
handshake-process calls made, and the renegotiation flag at return. -/
structure RRes where
  status : Nat
  fetchCount : Nat
  hsCount : Nat
  renegFlag : Bool
deriving DecidableEq, Repr

/-- Source lines 274-290: a renegotiation already in flight was initiated
locally (client in renegotiating state, or server that issued a hello
request). -/
def localInitiated (s : RSession) : Bool :=
  (s.sockType == SockType.client &&
     s.clientState == NX_SECURE_TLS_CLIENT_STATE_RENEGOTIATING) ||
  (s.sockType == SockType.server &&
     s.serverState == NX_SECURE_TLS_SERVER_STATE_HELLO_REQUEST)

/-- `_nx_secure_tls_session_receive` (source lines 256-335).  The
post-handshake `while` loop re-invokes the record fetch while the status stays
`NX_SECURE_TLS_POST_HANDSHAKE_RECEIVED`; since the branch is entered only when
fetch 0 returned that status, its exit state is the first fetch whose status
differs, i.e. fetch `Nat.find env.recvLive` (the least non-post-handshake
index), after `Nat.find env.recvLive + 1` fetches in total. -/
def _nx_secure_tls_session_receive (env : RecvEnv) (sess : RSession) : RRes :=
  let s0 := env.recvStatus 0
  let f0 := env.recvFlag 0
  if s0 = NX_SUCCESS ∧ f0 = true then
    if env.hsStatus ≠ NX_SUCCESS then ⟨env.hsStatus, 1, 1, env.hsFlag⟩
    else if localInitiated sess then ⟨env.hsStatus, 1, 1, env.hsFlag⟩
    else ⟨env.recvStatus 1, 2, 1, env.recvFlag 1⟩
  else if s0 = NX_SECURE_TLS_POST_HANDSHAKE_RECEIVED then
    let n := Nat.find env.recvLive
    ⟨env.recvStatus n, n + 1, 0, env.recvFlag n⟩
  else ⟨s0, 1, 0, f0⟩

/-- Concrete record-receiver environment: first fetch succeeds with the
renegotiation flag raised, the handshake succeeds, the second fetch returns
42. -/
def srEnvA : RecvEnv where
  recvStatus := fun k => if k = 0 then 0 else 42
  recvFlag := fun _ => true
  recvLive := ⟨0, by decide⟩
  hsStatus := 0
  hsFlag := false

/-- Concrete record-receiver environment: three consecutive post-handshake
indicators, then 77. -/
def srEnvPH : RecvEnv where
  recvStatus := fun k => if k < 3 then NX_SECURE_TLS_POST_HANDSHAKE_RECEIVED else 77
  recvFlag := fun _ => false
  recvLive := ⟨3, by decide⟩
  hsStatus := 0
  hsFlag := false

/-- Concrete record-receiver environment: the first fetch fails with status 5
while leaving the renegotiation flag set. -/
def srEnvErr : RecvEnv where
  recvStatus := fun _ => 5
  recvFlag := fun _ => true
  recvLive := ⟨0, by decide⟩
  hsStatus := 0
  hsFlag := false

/-! ## Helper vocabulary for the RSA-path theorems -/

/-- Contents of the padded scratch buffer at the moment the padding
inspection runs, for a call on which every provider operation succeeded:
written by the single user-defined-key operation, by the `NX_CRYPTO_DECRYPT`
operation, or untouched when the method has no `nx_crypto_operation`. -/
def rsaScratchAfter (env : Env) (cs : Ciphersuite) (cert : Certificate)
    (scratch0 : List Nat) : List Nat :=
  if cert.userDefinedKey then env.rsaUserOpScratch
  else if cs.pubCipherHasOp then env.rsaDecScratch
  else scratch0

/-- Every provider call of the RSA section taken on this configuration
reports success, so control reaches the padding inspection. -/
abbrev rsaOpsSucceed (env : Env) (cs : Ciphersuite) (cert : Certificate) : Prop :=
  (cert.userDefinedKey = true → env.rsaUserOpStatus = NX_CRYPTO_SUCCESS) ∧
  (cert.userDefinedKey = false →
    (cs.pubCipherHasInit = true → env.rsaInit = NX_CRYPTO_SUCCESS) ∧
    (cs.pubCipherHasOp = true →
      (cert.hasPrimeP = true ∧ cert.hasPrimeQ = true →
        env.rsaSetP = NX_CRYPTO_SUCCESS ∧ env.rsaSetQ = NX_CRYPTO_SUCCESS) ∧
      env.rsaDecStatus = NX_CRYPTO_SUCCESS) ∧
    (cs.pubCipherHasCleanup = true → env.rsaCleanup = NX_CRYPTO_SUCCESS))

/-! ## Concrete inputs used by witnesses and counterexamples -/

/-- Both build switches off. -/
def kxCfg0 : Config := ⟨false, false⟩

/-- `NX_SECURE_KEY_CLEAR` defined. -/
def kxCfgClear : Config := ⟨true, false⟩

/-- A constant `NX_RAND` stream. -/
def constRng : Nat → Nat := fun _ => 7

theorem constRng_live : ∀ c, ∃ k, constRng (c + k) % 256 ≠ 0 :=
  fun _ => ⟨0, by simp [constRng]⟩

/-- Baseline oracle environment: every status succeeds, no certificate in the
store, empty buffers. -/
def kxEnvBase : Env where
  rng := constRng
  rngLive := constRng_live
  ecjpakeOpStatus := 0
  ecjpakeOut := []
  ecjpakeCleanup := 0
  pskStatus := 0
  pskKM := ⟨[], 0, 0⟩
  storeCert := none
  findCurve := fun _ => (0, true)
  ecInit := 0
  ecCurveSet := 0
  ecImport := 0
  dhCalcStatus := 0
  dhCalcOut := []
  dhCalcActual := 0
  ecCleanup := 0
  rsaUserOpStatus := 0
  rsaUserOpScratch := []
  rsaInit := 0
  rsaSetP := 0
  rsaSetQ := 0
  rsaDecStatus := 0
  rsaDecScratch := []
  rsaCleanup := 0

/-- An RSA ciphersuite (parsed key path: init absent, operation present). -/
def csRSA : Ciphersuite := ⟨1, CryptoAlg.rsa, CryptoAlg.other, false, true, false, false⟩

/-- The `TLS_NULL_WITH_NULL_NULL` ciphersuite. -/
def csNull : Ciphersuite :=
  ⟨TLS_NULL_WITH_NULL_NULL, CryptoAlg.nullAlg, CryptoAlg.other, false, false, false, false⟩

/-- A PSK ciphersuite. -/
def csPSK : Ciphersuite := ⟨2, CryptoAlg.other, CryptoAlg.psk, false, false, false, false⟩

/-- A local device certificate with a parsed RSA key. -/
def certRSA : Certificate := ⟨false, NX_SECURE_TLS_X509_TYPE_RSA, 0, false, false⟩

/-- Entry key material: premaster buffer of 48 zero bytes, recorded size 0. -/
def km0 : KeyMaterial := ⟨List.replicate NX_SECURE_TLS_PREMASTER_SIZE 0, 0, 0⟩

def sessRSA : Session := ⟨some csRSA, none, km0⟩

def sessNull : Session := ⟨some csNull, none, km0⟩

def sessPSK : Session := ⟨some csPSK, none, km0⟩

/-- All-zero contents of the padded scratch buffer. -/
def scratchZero : List Nat := List.replicate paddedPreMasterSize 0

/-- Environment with the RSA certificate available from the store. -/
def kxEnvCert : Env := { kxEnvBase with storeCert := some certRSA }

/-- Environment in which the decrypt operation fails with status 5 after
writing a nonzero byte into the scratch buffer. -/
def kxEnvDecFail : Env :=
  { kxEnvCert with rsaDecStatus := 5, rsaDecScratch := 1 :: List.replicate 599 0 }

/-- Environment in which decryption succeeds and leaves invalid PKCS#1
padding (first byte 7) in the scratch buffer. -/
def kxEnvBadPad : Env :=
  { kxEnvCert with rsaDecScratch := List.replicate paddedPreMasterSize 7 }

/-- Environment in which decryption succeeds and leaves valid PKCS#1 padding
for a declared length of 49 (bytes `0x00 0x02`, zero separator at index 0,
then payload bytes 5). -/
def kxEnvGoodPad : Env :=
  { kxEnvCert with rsaDecScratch := 0 :: 2 :: List.replicate 598 5 }

/-! ## Claims C5, C6, C10: the record receiver -/

/-- **C5.** During session-receive, when the record fetch succeeds and signals
a renegotiation handshake and the handshake completes: if the renegotiation
was remote-initiated, exactly one additional record-fetch attempt is made
after the handshake (two fetches in total) and its result is returned; if it
was locally initiated (client renegotiating, or server having issued a
hello-request), no additional fetch is made and control returns after the
handshake. -/
theorem sr_renegotiation_fetch_policy (env : RecvEnv) (sess : RSession)
    (h0 : env.recvStatus 0 = NX_SUCCESS)
    (hf : env.recvFlag 0 = true)
    (hh : env.hsStatus = NX_SUCCESS) :
    (localInitiated sess = true →
      _nx_secure_tls_session_receive env sess = ⟨NX_SUCCESS, 1, 1, env.hsFlag⟩) ∧
    (localInitiated sess = false →
      (_nx_secure_tls_session_receive env sess).status = env.recvStatus 1 ∧
      (_nx_secure_tls_session_receive env sess).fetchCount = 2 ∧
      (_nx_secure_tls_session_receive env sess).hsCount = 1) := by
  unfold _nx_secure_tls_session_receive
  rw [if_pos ⟨h0, hf⟩, if_neg (not_not_intro hh)]
  constructor
  · intro hl
    rw [if_pos hl, hh]
  · intro hl
    rw [if_neg (by rw [hl]; exact Bool.false_ne_true)]
    exact ⟨rfl, rfl, rfl⟩

theorem sr_renegotiation_fetch_policy_witness :
    (localInitiated ⟨SockType.client, NX_SECURE_TLS_CLIENT_STATE_RENEGOTIATING, 0⟩ = true ∧
      _nx_secure_tls_session_receive srEnvA
          ⟨SockType.client, NX_SECURE_TLS_CLIENT_STATE_RENEGOTIATING, 0⟩ =
        ⟨NX_SUCCESS, 1, 1, false⟩) ∧
    (localInitiated ⟨SockType.client, 0, 0⟩ = false ∧
      (_nx_secure_tls_session_receive srEnvA ⟨SockType.client, 0, 0⟩).status =
          srEnvA.recvStatus 1 ∧
      (_nx_secure_tls_session_receive srEnvA ⟨SockType.client, 0, 0⟩).fetchCount = 2) :=
  ⟨⟨by decide,
    (sr_renegotiation_fetch_policy srEnvA _ rfl rfl rfl).1 (by decide)⟩,
   ⟨by decide,
    ((sr_renegotiation_fetch_policy srEnvA _ rfl rfl rfl).2 (by decide)).1,
    ((sr_renegotiation_fetch_policy srEnvA _ rfl rfl rfl).2 (by decide)).2.1⟩⟩

/-- **C6.** When the record fetch returns the post-handshake-received status,
the fetch is re-invoked while that status persists; the loop stops at the
first fetch `n` whose status is not post-handshake-received, that status is
returned (after `n + 1` fetches in total), and the handshake processor is
never invoked. -/
theorem sr_post_handshake_loop (env : RecvEnv) (sess : RSession) (n : Nat)
    (h0 : env.recvStatus 0 = NX_SECURE_TLS_POST_HANDSHAKE_RECEIVED)
    (hn : env.recvStatus n ≠ NX_SECURE_TLS_POST_HANDSHAKE_RECEIVED)
    (hmin : ∀ m, m < n → env.recvStatus m = NX_SECURE_TLS_POST_HANDSHAKE_RECEIVED) :
    (_nx_secure_tls_session_receive env sess).status = env.recvStatus n ∧
    (_nx_secure_tls_session_receive env sess).fetchCount = n + 1 ∧
    (_nx_secure_tls_session_receive env sess).hsCount = 0 := by
  have hfind : Nat.find env.recvLive = n :=
    (Nat.find_eq_iff env.recvLive).mpr ⟨hn, fun m hm => not_not_intro (hmin m hm)⟩
  have hns : ¬(env.recvStatus 0 = NX_SUCCESS ∧ env.recvFlag 0 = true) := by
    intro h
    rw [h0] at h
    exact absurd h.1 (by decide)
  unfold _nx_secure_tls_session_receive
  rw [if_neg hns, if_pos h0, hfind]
  exact ⟨rfl, rfl, rfl⟩

theorem sr_post_handshake_loop_witness :
    srEnvPH.recvStatus 0 = NX_SECURE_TLS_POST_HANDSHAKE_RECEIVED ∧
    (_nx_secure_tls_session_receive srEnvPH ⟨SockType.client, 0, 0⟩).status =
      srEnvPH.recvStatus 3 ∧
    (_nx_secure_tls_session_receive srEnvPH ⟨SockType.client, 0, 0⟩).fetchCount = 3 + 1 ∧
    (_nx_secure_tls_session_receive srEnvPH ⟨SockType.client, 0, 0⟩).hsCount = 0 :=
  ⟨by decide, sr_post_handshake_loop srEnvPH _ 3 (by decide) (by decide) (by decide)⟩

/-- **C10.** If the initial record fetch returns any status other than
success, the renegotiation handshake is never run; unless that status is the
post-handshake-received one (which enters the post-handshake loop), the fetch
status is returned unchanged and the renegotiation flag is exactly the value
the fetch left (the receiver does not clear it). -/
theorem sr_error_skips_renegotiation (env : RecvEnv) (sess : RSession)
    (h0 : env.recvStatus 0 ≠ NX_SUCCESS) :
    (_nx_secure_tls_session_receive env sess).hsCount = 0 ∧
    (env.recvStatus 0 ≠ NX_SECURE_TLS_POST_HANDSHAKE_RECEIVED →
      _nx_secure_tls_session_receive env sess =
        ⟨env.recvStatus 0, 1, 0, env.recvFlag 0⟩) := by
  unfold _nx_secure_tls_session_receive
  rw [if_neg (fun h => h0 h.1)]
  by_cases hp : env.recvStatus 0 = NX_SECURE_TLS_POST_HANDSHAKE_RECEIVED
  · rw [if_pos hp]
    exact ⟨rfl, fun hc => absurd hp hc⟩
  · rw [if_neg hp]
    exact ⟨rfl, fun _ => rfl⟩

theorem sr_error_skips_renegotiation_witness :
    srEnvErr.recvStatus 0 ≠ NX_SUCCESS ∧
    srEnvErr.recvFlag 0 = true ∧
    (_nx_secure_tls_session_receive srEnvErr ⟨SockType.client, 0, 0⟩).hsCount = 0 ∧
    _nx_secure_tls_session_receive srEnvErr ⟨SockType.client, 0, 0⟩ = ⟨5, 1, 0, true⟩ :=
  ⟨by decide, by decide,
   (sr_error_skips_renegotiation srEnvErr _ (by decide)).1,
   (sr_error_skips_renegotiation srEnvErr _ (by decide)).2 (by decide)⟩

/-! ## Claim C3: the sub-length checks -/

/-- **C3 (amended).** A declared sub-length field (the one-byte EC public-key
length, or the two-byte RSA encrypted-premaster length) is rejected with the
incorrect-message-length error exactly by the comparison against the caller's
*total* `message_length` (the check does not subtract the 1- or 2-byte field
itself): whenever the declared sub-length strictly exceeds the total message
length, the processor returns the incorrect-message-length error with no
external call and no key-material or scratch modification. -/
theorem kx_sublength_check (cfg : Config) (env : Env) (sess : Session)
    (msg : List Nat) (L : Nat) (scratch0 : List Nat) (cs : Ciphersuite)
    (hcs : sess.ciphersuite = some cs)
    (hA : cs.publicAuthAlg ≠ CryptoAlg.ecjpake)
    (hP : cs.publicAuthAlg ≠ CryptoAlg.psk)
    (h : ((cs.publicCipherAlg = CryptoAlg.ecdh ∨ cs.publicCipherAlg = CryptoAlg.ecdhe) ∧
            byteAt msg 0 > L) ∨
         (¬(cs.publicCipherAlg = CryptoAlg.ecdh ∨ cs.publicCipherAlg = CryptoAlg.ecdhe) ∧
            declared16 msg > L)) :
    _nx_secure_tls_process_client_key_exchange cfg env sess msg L scratch0 =
      ⟨NX_SECURE_TLS_INCORRECT_MESSAGE_LENGTH, sess.keyMaterial, scratch0, []⟩ := by
  simp only [_nx_secure_tls_process_client_key_exchange, hcs]
  rw [if_neg hA, if_neg hP]
  rcases h with ⟨hec, hlen⟩ | ⟨hnec, hlen⟩
  · rw [if_pos hec]
    simp only [ecBranch]
    rw [if_pos hlen]
  · rw [if_neg hnec]
    simp only [certBranch]
    rw [if_pos hlen]

theorem kx_sublength_check_witness :
    byteAt [60] 0 > 1 ∧ declared16 [0, 9, 1] > 3 ∧
    _nx_secure_tls_process_client_key_exchange kxCfg0 kxEnvBase
        ⟨some ⟨3, CryptoAlg.ecdh, CryptoAlg.other, false, true, false, false⟩, none, km0⟩
        [60] 1 scratchZero =
      ⟨NX_SECURE_TLS_INCORRECT_MESSAGE_LENGTH, km0, scratchZero, []⟩ ∧
    _nx_secure_tls_process_client_key_exchange kxCfg0 kxEnvBase sessRSA
        [0, 9, 1] 3 scratchZero =
      ⟨NX_SECURE_TLS_INCORRECT_MESSAGE_LENGTH, km0, scratchZero, []⟩ :=
  ⟨by decide, by decide,
   kx_sublength_check kxCfg0 kxEnvBase _ [60] 1 scratchZero _ rfl
     (by decide) (by decide) (Or.inl ⟨Or.inl rfl, by decide⟩),
   kx_sublength_check kxCfg0 kxEnvBase sessRSA [0, 9, 1] 3 scratchZero _ rfl
     (by decide) (by decide) (Or.inr ⟨by decide, by decide⟩)⟩

/-- **C3 counterexample.** The claim as stated — a sub-length greater than the
bytes *remaining after the prefix* is always rejected — is false: for message
`[0x00, 0x03, 0x09]` with `message_length = 3` the declared RSA sub-length 3
exceeds the remaining 1 byte, yet the check `length > message_length`
(3 > 3) does not fire: the call proceeds to the certificate lookup and
returns certificate-not-found, not incorrect-message-length. -/
theorem kx_sublength_check_cex :
    declared16 [0, 3, 9] > 3 - 2 ∧
    (_nx_secure_tls_process_client_key_exchange kxCfg0 kxEnvBase sessRSA
        [0, 3, 9] 3 scratchZero).status = NX_SECURE_TLS_CERTIFICATE_NOT_FOUND ∧
    (_nx_secure_tls_process_client_key_exchange kxCfg0 kxEnvBase sessRSA
        [0, 3, 9] 3 scratchZero).trace ≠ [] ∧
    NX_SECURE_TLS_CERTIFICATE_NOT_FOUND ≠ NX_SECURE_TLS_INCORRECT_MESSAGE_LENGTH := by
  decide

/-! ## Claim C9: bounds of the padding inspection -/

/-- **C9 (code bug).** The three indices read by the padding inspection are
*not* always within the 600-byte scratch buffer for messages accepted by the
length check: for declared length 1 (message `[0x00, 0x01, 0xAB]`,
`message_length = 3`, accepted since 1 ≤ 3) the C index
`length - 48 - 1` evaluates to -48, outside `[0, 600)` — an out-of-bounds
read of `_nx_secure_client_padded_pre_master`. -/
theorem kx_padding_inspection_oob :
    declared16 [0, 1, 171] = 1 ∧
    declared16 [0, 1, 171] ≤ 3 ∧
    padByteIndex (declared16 [0, 1, 171]) = -48 ∧
    ¬(0 ≤ padByteIndex (declared16 [0, 1, 171]) ∧
      padByteIndex (declared16 [0, 1, 171]) < (paddedPreMasterSize : Int)) := by
  decide

/-! ## Claim C2: clearing of the padded scratch buffer -/

theorem finalize_scratch (cfg : Config) (km : KeyMaterial) (scratch : List Nat)
    (tr : List Ev) (h : cfg.keyClear = true) :
    (finalize cfg km scratch tr).scratch = List.replicate paddedPreMasterSize 0 := by
  simp only [finalize, h, if_true]
  split_ifs <;> rfl

theorem paddingPhase_scratch (cfg : Config) (env : Env) (km : KeyMaterial)
    (len : Nat) (scratch : List Nat) (tr : List Ev) (h : cfg.keyClear = true) :
    (paddingPhase cfg env km len scratch tr).scratch =
      List.replicate paddedPreMasterSize 0 := by
  simp only [paddingPhase]
  exact finalize_scratch _ _ _ _ h

theorem rsaCleanupStep_scratch (cfg : Config) (env : Env) (km : KeyMaterial)
    (len : Nat) (scratch : List Nat) (cs : Ciphersuite) (tr : List Ev)
    (h : cfg.keyClear = true) :
    (rsaCleanupStep cfg env km len scratch cs tr).scratch =
      List.replicate paddedPreMasterSize 0 := by
  unfold rsaCleanupStep
  split_ifs with h1 h2
  · simp [h]
  · exact paddingPhase_scratch _ _ _ _ _ _ h
  · exact paddingPhase_scratch _ _ _ _ _ _ h

theorem rsaDecStep_scratch (cfg : Config) (env : Env) (km : KeyMaterial)
    (len : Nat) (cs : Ciphersuite) (tr : List Ev) (h : cfg.keyClear = true)
    (h0 : (rsaDecStep cfg env km len cs tr).status = NX_SUCCESS) :
    (rsaDecStep cfg env km len cs tr).scratch =
      List.replicate paddedPreMasterSize 0 := by
  unfold rsaDecStep at h0 ⊢
  split_ifs at h0 ⊢ with hd
  · exact absurd h0 hd
  · exact rsaCleanupStep_scratch _ _ _ _ _ _ _ h

theorem rsaOpBlock_scratch (cfg : Config) (env : Env) (km : KeyMaterial)
    (len : Nat) (scratch0 : List Nat) (cs : Ciphersuite) (cert : Certificate)
    (tr : List Ev) (h : cfg.keyClear = true)
    (h0 : (rsaOpBlock cfg env km len scratch0 cs cert tr).status = NX_SUCCESS) :
    (rsaOpBlock cfg env km len scratch0 cs cert tr).scratch =
      List.replicate paddedPreMasterSize 0 := by
  unfold rsaOpBlock at h0 ⊢
  split_ifs at h0 ⊢ with h1 h2 h3 h4
  · exact absurd h0 h3
  · exact absurd h0 h4
  · exact rsaDecStep_scratch _ _ _ _ _ _ h h0
  · exact rsaDecStep_scratch _ _ _ _ _ _ h h0
  · exact rsaCleanupStep_scratch _ _ _ _ _ _ _ h

theorem rsaParsedKey_scratch (cfg : Config) (env : Env) (km : KeyMaterial)
    (len : Nat) (scratch0 : List Nat) (cs : Ciphersuite) (cert : Certificate)
    (tr : List Ev) (h : cfg.keyClear = true)
    (h0 : (rsaParsedKey cfg env km len scratch0 cs cert tr).status = NX_SUCCESS) :
    (rsaParsedKey cfg env km len scratch0 cs cert tr).scratch =
      List.replicate paddedPreMasterSize 0 := by
  unfold rsaParsedKey at h0 ⊢
  split_ifs at h0 ⊢ with h1 h2
  · exact absurd h0 h2
  · exact rsaOpBlock_scratch _ _ _ _ _ _ _ _ h h0
  · exact rsaOpBlock_scratch _ _ _ _ _ _ _ _ h h0

theorem rsaSection_scratch (cfg : Config) (env : Env) (km : KeyMaterial)
    (len : Nat) (scratch0 : List Nat) (cs : Ciphersuite) (cert : Certificate)
    (tr : List Ev) (h : cfg.keyClear = true)
    (h0 : (rsaSection cfg env km len scratch0 cs cert tr).status = NX_SUCCESS) :
    (rsaSection cfg env km len scratch0 cs cert tr).scratch =
      List.replicate paddedPreMasterSize 0 := by
  unfold rsaSection at h0 ⊢
  split_ifs at h0 ⊢ with h1 h2
  · exact absurd h0 h2
  · exact paddingPhase_scratch _ _ _ _ _ _ h
  · exact rsaParsedKey_scratch _ _ _ _ _ _ _ _ h h0

theorem statusNeUC : NX_SECURE_TLS_UNKNOWN_CIPHERSUITE ≠ NX_SUCCESS := by decide

theorem statusNeIML : NX_SECURE_TLS_INCORRECT_MESSAGE_LENGTH ≠ NX_SUCCESS := by decide

theorem statusNeCNF : NX_SECURE_TLS_CERTIFICATE_NOT_FOUND ≠ NX_SUCCESS := by decide

theorem statusNeUEC : NX_SECURE_TLS_UNSUPPORTED_ECC_CURVE ≠ NX_SUCCESS := by decide

theorem statusNeMCR : NX_SECURE_TLS_MISSING_CRYPTO_ROUTINE ≠ NX_SUCCESS := by decide

theorem statusNeUPC : NX_SECURE_TLS_UNSUPPORTED_PUBLIC_CIPHER ≠ NX_SUCCESS := by decide

theorem certBranch_scratch (cfg : Config) (env : Env) (km : KeyMaterial)
    (msg : List Nat) (L : Nat) (scratch0 : List Nat) (cs : Ciphersuite)
    (hkc : cfg.keyClear = true)
    (h0 : (certBranch cfg env km msg L scratch0 cs).status = NX_SUCCESS) :
    (certBranch cfg env km msg L scratch0 cs).scratch =
      List.replicate paddedPreMasterSize 0 := by
  simp only [certBranch] at h0 ⊢
  generalize hsc : env.storeCert = sc at h0 ⊢
  split_ifs at h0 ⊢ with h1 h2
  · exact absurd h0 statusNeIML
  · cases sc with
    | none => exact absurd h0 statusNeCNF
    | some cert =>
      dsimp only at h0 ⊢
      split_ifs at h0 ⊢ with h3
      · exact rsaSection_scratch _ _ _ _ _ _ _ _ hkc h0
      · exact absurd h0 statusNeUPC
  · cases sc with
    | none => exact absurd h0 statusNeCNF
    | some cert =>
      dsimp only at h0 ⊢
      split_ifs at h0 ⊢ with h3
      · exact rsaSection_scratch _ _ _ _ _ _ _ _ hkc h0
      · exact absurd h0 statusNeUPC

theorem ecOps_scratch (cfg : Config) (env : Env) (km : KeyMaterial)
    (scratch0 : List Nat) (cs : Ciphersuite) (tr : List Ev)
    (hkc : cfg.keyClear = true)
    (h0 : (ecOps cfg env km scratch0 cs tr).status = NX_SUCCESS) :
    (ecOps cfg env km scratch0 cs tr).scratch =
      List.replicate paddedPreMasterSize 0 := by
  simp only [ecOps] at h0 ⊢
  split_ifs at h0 ⊢ <;>
    first
      | exact finalize_scratch _ _ _ _ hkc
      | simp_all [NX_CRYPTO_SUCCESS, NX_SUCCESS]

theorem ecCurveSelect_error (env : Env) (sess : Session) (cs : Ciphersuite)
    (scratch0 : List Nat) (r : KXResult)
    (h : ecCurveSelect env sess cs scratch0 = Except.error r) :
    r.status = NX_SECURE_TLS_CERTIFICATE_NOT_FOUND := by
  unfold ecCurveSelect at h
  split_ifs at h
  · generalize hA : sess.activeCert = a at h
    cases a with
    | some cert => simp at h
    | none =>
      generalize hS : env.storeCert = s at h
      cases s with
      | some cert => simp at h
      | none =>
        dsimp only at h
        cases h
        rfl

theorem ecBranch_scratch (cfg : Config) (env : Env) (sess : Session)
    (msg : List Nat) (L : Nat) (scratch0 : List Nat) (cs : Ciphersuite)
    (hkc : cfg.keyClear = true)
    (h0 : (ecBranch cfg env sess msg L scratch0 cs).status = NX_SUCCESS) :
    (ecBranch cfg env sess msg L scratch0 cs).scratch =
      List.replicate paddedPreMasterSize 0 := by
  simp only [ecBranch] at h0 ⊢
  by_cases h1 : byteAt msg 0 > L
  · rw [if_pos h1] at h0
    exact absurd h0 statusNeIML
  · rw [if_neg h1] at h0 ⊢
    generalize hsel : ecCurveSelect env sess cs scratch0 = sel at h0 ⊢
    cases sel with
    | error r =>
      have hr := ecCurveSelect_error env sess cs scratch0 r hsel
      dsimp only at h0 ⊢
      exact absurd (hr.symm.trans h0) statusNeCNF
    | ok p =>
      obtain ⟨curveId, tr0⟩ := p
      dsimp only at h0 ⊢
      by_cases h2 : (env.findCurve curveId).1 ≠ NX_SUCCESS
      · rw [if_pos h2] at h0
        exact absurd h0 h2
      · rw [if_neg h2] at h0 ⊢
        by_cases h3 : (env.findCurve curveId).2 = false
        · rw [if_pos h3] at h0
          exact absurd h0 statusNeUEC
        · rw [if_neg h3] at h0 ⊢
          by_cases h4 : cs.pubCipherHasOp = false
          · rw [if_pos h4] at h0
            exact absurd h0 statusNeMCR
          · rw [if_neg h4] at h0 ⊢
            exact ecOps_scratch _ _ _ _ _ _ hkc h0

theorem ecjpakeBranch_scratch (cfg : Config) (env : Env) (km : KeyMaterial)
    (scratch0 : List Nat) (cs : Ciphersuite)
    (hkc : cfg.keyClear = true)
    (h0 : (ecjpakeBranch cfg env km scratch0 cs).status = NX_SUCCESS) :
    (ecjpakeBranch cfg env km scratch0 cs).scratch =
      List.replicate paddedPreMasterSize 0 := by
  simp only [ecjpakeBranch] at h0 ⊢
  split_ifs at h0 ⊢ with h1 h2 h3
  · exact absurd h0 h1
  · exact absurd h0 h3
  · exact finalize_scratch _ _ _ _ hkc
  · exact finalize_scratch _ _ _ _ hkc

theorem pskBranch_scratch (cfg : Config) (env : Env) (scratch0 : List Nat)
    (hkc : cfg.keyClear = true)
    (h0 : (pskBranch cfg env scratch0).status = NX_SUCCESS) :
    (pskBranch cfg env scratch0).scratch = List.replicate paddedPreMasterSize 0 := by
  simp only [pskBranch] at h0 ⊢
  split_ifs at h0 ⊢ with h1
  · exact absurd h0 h1
  · exact finalize_scratch _ _ _ _ hkc

/-- **C2 (amended).** Whenever secret-clearing (`NX_SECURE_KEY_CLEAR`) is
enabled, the 600-byte padded scratch buffer is all-zero after every *call
that returns success* (the memset at the fall-through exit, plus the one on
the RSA cleanup-failure path, are the only clears in the function); early
error returns do *not* zero the buffer. -/
theorem kx_keyclear_success_scratch (cfg : Config) (env : Env) (sess : Session)
    (msg : List Nat) (L : Nat) (scratch0 : List Nat)
    (hkc : cfg.keyClear = true)
    (h0 : (_nx_secure_tls_process_client_key_exchange cfg env sess msg L
        scratch0).status = NX_SUCCESS) :
    (_nx_secure_tls_process_client_key_exchange cfg env sess msg L
        scratch0).scratch = List.replicate paddedPreMasterSize 0 := by
  unfold _nx_secure_tls_process_client_key_exchange at h0 ⊢
  generalize hcs : sess.ciphersuite = oc at h0 ⊢
  cases oc with
  | none => exact absurd h0 statusNeUC
  | some cs =>
    dsimp only at h0 ⊢
    split_ifs at h0 ⊢ with h1 h2 h3
    · exact ecjpakeBranch_scratch _ _ _ _ _ hkc h0
    · exact pskBranch_scratch _ _ _ hkc h0
    · exact ecBranch_scratch _ _ _ _ _ _ _ hkc h0
    · exact certBranch_scratch _ _ _ _ _ _ _ hkc h0

theorem kx_keyclear_success_scratch_witness :
    kxCfgClear.keyClear = true ∧
    (_nx_secure_tls_process_client_key_exchange kxCfgClear kxEnvBase sessPSK [] 0
        (1 :: List.replicate 599 9)).status = NX_SUCCESS ∧
    (_nx_secure_tls_process_client_key_exchange kxCfgClear kxEnvBase sessPSK [] 0
        (1 :: List.replicate 599 9)).scratch = List.replicate paddedPreMasterSize 0 :=
  ⟨rfl, rfl, kx_keyclear_success_scratch _ _ _ _ _ _ rfl rfl⟩

/-- **C2 counterexample.** The claim as stated — the scratch buffer is
all-zero after *every* return, including error returns — is false: with
secret-clearing enabled and an all-zero buffer at entry, a decrypt operation
that writes a nonzero byte into the scratch buffer and then reports failure
(status 5) makes the processor return status 5 at source line 488 without any
clearing, leaving the nonzero byte behind. -/
theorem kx_keyclear_scratch_cex :
    kxCfgClear.keyClear = true ∧
    (_nx_secure_tls_process_client_key_exchange kxCfgClear kxEnvDecFail sessRSA
        [0, 0] 2 scratchZero).status = 5 ∧
    (_nx_secure_tls_process_client_key_exchange kxCfgClear kxEnvDecFail sessRSA
        [0, 0] 2 scratchZero).scratch ≠ List.replicate paddedPreMasterSize 0 := by
  decide

/-! ## Claim C8: unsupported public cipher -/

/-- **C8 (amended).** In the certificate-based branch with a certificate
found, a negotiated public-cipher algorithm that is not RSA (or a certificate
whose public algorithm is not RSA) yields the unsupported-public-cipher
error; key material is left unmodified *provided the ciphersuite is not the
NULL one* — for `TLS_NULL_WITH_NULL_NULL` the special-case copy has already
overwritten the premaster secret by the time the error is returned. -/
theorem kx_unsupported_cipher_frame (cfg : Config) (env : Env) (sess : Session)
    (msg : List Nat) (L : Nat) (scratch0 : List Nat) (cs : Ciphersuite)
    (cert : Certificate)
    (hcs : sess.ciphersuite = some cs)
    (hA : cs.publicAuthAlg ≠ CryptoAlg.ecjpake)
    (hP : cs.publicAuthAlg ≠ CryptoAlg.psk)
    (hnec : ¬(cs.publicCipherAlg = CryptoAlg.ecdh ∨ cs.publicCipherAlg = CryptoAlg.ecdhe))
    (hlen : declared16 msg ≤ L)
    (hnull : cs.suiteId ≠ TLS_NULL_WITH_NULL_NULL)
    (hcert : env.storeCert = some cert)
    (hnrsa : ¬(cs.publicCipherAlg = CryptoAlg.rsa ∧
        cert.publicAlgorithm = NX_SECURE_TLS_X509_TYPE_RSA)) :
    _nx_secure_tls_process_client_key_exchange cfg env sess msg L scratch0 =
      ⟨NX_SECURE_TLS_UNSUPPORTED_PUBLIC_CIPHER, sess.keyMaterial, scratch0,
        [Ev.certLookup]⟩ := by
  simp only [_nx_secure_tls_process_client_key_exchange, hcs]
  rw [if_neg hA, if_neg hP, if_neg hnec]
  simp only [certBranch, hcert]
  rw [if_neg (not_lt.mpr hlen)]
  rw [if_neg hnrsa, if_neg hnull]

theorem kx_unsupported_cipher_frame_witness :
    declared16 [0, 1, 7] ≤ 3 ∧
    _nx_secure_tls_process_client_key_exchange kxCfg0 kxEnvCert
        ⟨some ⟨4, CryptoAlg.other, CryptoAlg.other, false, false, false, false⟩, none, km0⟩
        [0, 1, 7] 3 scratchZero =
      ⟨NX_SECURE_TLS_UNSUPPORTED_PUBLIC_CIPHER, km0, scratchZero, [Ev.certLookup]⟩ :=
  ⟨by decide,
   kx_unsupported_cipher_frame kxCfg0 kxEnvCert _ [0, 1, 7] 3 scratchZero _ certRSA
     rfl (by decide) (by decide) (by decide) (by decide) (by decide) rfl (by decide)⟩

/-- **C8 counterexample.** The claim as stated — key material left unmodified
whenever the certificate-based branch returns unsupported-public-cipher — is
false for the NULL ciphersuite: the call below returns
unsupported-public-cipher, yet the NULL-cipher copy has changed the key
material (recorded premaster size 1 instead of the entry value 0). -/
theorem kx_unsupported_cipher_frame_cex :
    csNull.publicCipherAlg ≠ CryptoAlg.rsa ∧
    (_nx_secure_tls_process_client_key_exchange kxCfg0 kxEnvCert sessNull
        [0, 1, 7] 3 scratchZero).status = NX_SECURE_TLS_UNSUPPORTED_PUBLIC_CIPHER ∧
    (_nx_secure_tls_process_client_key_exchange kxCfg0 kxEnvCert sessNull
        [0, 1, 7] 3 scratchZero).km ≠ sessNull.keyMaterial := by
  decide

/-! ## Claim C7: the NULL-ciphersuite special case -/

/-- **C7 (amended).** For the NULL ciphersuite the plaintext bytes after the
two-byte length field are copied into the premaster buffer (truncated to the
buffer capacity) and the recorded size is the copied length — but the branch
does *not* bypass the certificate-based processing: the certificate lookup
still runs, and (absent an RSA configuration that would proceed to
decryption) the call returns certificate-not-found or
unsupported-public-cipher rather than success. -/
theorem kx_null_cipher_copy (cfg : Config) (env : Env) (sess : Session)
    (msg : List Nat) (L : Nat) (scratch0 : List Nat) (cs : Ciphersuite)
    (hcs : sess.ciphersuite = some cs)
    (hA : cs.publicAuthAlg ≠ CryptoAlg.ecjpake)
    (hP : cs.publicAuthAlg ≠ CryptoAlg.psk)
    (hnec : ¬(cs.publicCipherAlg = CryptoAlg.ecdh ∨ cs.publicCipherAlg = CryptoAlg.ecdhe))
    (hnull : cs.suiteId = TLS_NULL_WITH_NULL_NULL)
    (hlen : declared16 msg ≤ L)
    (hno : ∀ c, env.storeCert = some c →
      ¬(cs.publicCipherAlg = CryptoAlg.rsa ∧
          c.publicAlgorithm = NX_SECURE_TLS_X509_TYPE_RSA)) :
    (_nx_secure_tls_process_client_key_exchange cfg env sess msg L
        scratch0).km.preMaster =
      readBytes msg 2 (min (declared16 msg) NX_SECURE_TLS_PREMASTER_SIZE) ++
        sess.keyMaterial.preMaster.drop
          (min (declared16 msg) NX_SECURE_TLS_PREMASTER_SIZE) ∧
    (_nx_secure_tls_process_client_key_exchange cfg env sess msg L
        scratch0).km.preMasterSize =
      min (declared16 msg) NX_SECURE_TLS_PREMASTER_SIZE ∧
    Ev.certLookup ∈
      (_nx_secure_tls_process_client_key_exchange cfg env sess msg L
        scratch0).trace ∧
    ((_nx_secure_tls_process_client_key_exchange cfg env sess msg L
        scratch0).status = NX_SECURE_TLS_CERTIFICATE_NOT_FOUND ∨
     (_nx_secure_tls_process_client_key_exchange cfg env sess msg L
        scratch0).status = NX_SECURE_TLS_UNSUPPORTED_PUBLIC_CIPHER) := by
  simp only [_nx_secure_tls_process_client_key_exchange, hcs]
  rw [if_neg hA, if_neg hP, if_neg hnec]
  simp only [certBranch]
  rw [if_neg (not_lt.mpr hlen)]
  generalize hsc : env.storeCert = sc
  cases sc with
  | none =>
    dsimp only
    rw [if_pos hnull]
    exact ⟨rfl, rfl, by simp, Or.inl rfl⟩
  | some cert =>
    dsimp only
    rw [if_neg (hno cert hsc), if_pos hnull]
    exact ⟨rfl, rfl, by simp, Or.inr rfl⟩

theorem kx_null_cipher_copy_witness :
    declared16 [0, 1, 7] ≤ 3 ∧ sessNull.ciphersuite = some csNull ∧
    (_nx_secure_tls_process_client_key_exchange kxCfg0 kxEnvBase sessNull
        [0, 1, 7] 3 scratchZero).km.preMaster =
      readBytes [0, 1, 7] 2 (min (declared16 [0, 1, 7]) NX_SECURE_TLS_PREMASTER_SIZE) ++
        sessNull.keyMaterial.preMaster.drop
          (min (declared16 [0, 1, 7]) NX_SECURE_TLS_PREMASTER_SIZE) ∧
    (_nx_secure_tls_process_client_key_exchange kxCfg0 kxEnvBase sessNull
        [0, 1, 7] 3 scratchZero).km.preMasterSize =
      min (declared16 [0, 1, 7]) NX_SECURE_TLS_PREMASTER_SIZE :=
  ⟨by decide, rfl,
   (kx_null_cipher_copy kxCfg0 kxEnvBase sessNull [0, 1, 7] 3 scratchZero csNull
      rfl (by decide) (by decide) (by decide) (by decide) (by decide)
      (fun c h => nomatch h)).1,
   (kx_null_cipher_copy kxCfg0 kxEnvBase sessNull [0, 1, 7] 3 scratchZero csNull
      rfl (by decide) (by decide) (by decide) (by decide) (by decide)
      (fun c h => nomatch h)).2.1⟩

/-- **C7 counterexample.** The claim as stated says the NULL ciphersuite
bypasses the certificate lookup; it does not: the call below (NULL
ciphersuite, empty certificate store) performs the lookup and returns
certificate-not-found. -/
theorem kx_null_cipher_copy_cex :
    sessNull.ciphersuite = some csNull ∧
    csNull.suiteId = TLS_NULL_WITH_NULL_NULL ∧
    Ev.certLookup ∈
      (_nx_secure_tls_process_client_key_exchange kxCfg0 kxEnvBase sessNull
        [0, 1, 7] 3 scratchZero).trace ∧
    (_nx_secure_tls_process_client_key_exchange kxCfg0 kxEnvBase sessNull
        [0, 1, 7] 3 scratchZero).status = NX_SECURE_TLS_CERTIFICATE_NOT_FOUND := by
  decide

/-! ## Claims C1 and C4: the RSA padding inspection outcomes -/

theorem fillRandom_length (env : Env) (n : Nat) :
    ∀ c, (fillRandom env c n).length = n := by
  induction n with
  | zero => intro c; rfl
  | succ n ih => intro c; simp [fillRandom, ih]

theorem fillRandom_mem (env : Env) (n : Nat) :
    ∀ c, ∀ b ∈ fillRandom env c n, b ≠ 0 ∧ b < 256 := by
  induction n with
  | zero =>
    intro c b hb
    simp [fillRandom] at hb
  | succ n ih =>
    intro c b hb
    simp only [fillRandom] at hb
    rcases List.mem_cons.mp hb with h | h
    · subst h
      refine ⟨Nat.find_spec (env.rngLive c), ?_⟩
      exact Nat.mod_lt _ (by norm_num)
    · exact ih _ b h

theorem readBytes_getD (l : List Nat) (off n i : Nat) (h : i < n) :
    (readBytes l off n).getD i 0 = byteAt l (off + i) := by
  simp [readBytes, List.getD_eq_getElem?_getD, List.getElem?_map, List.getElem?_range h]

theorem readBytes_length (l : List Nat) (off n : Nat) :
    (readBytes l off n).length = n := by
  simp [readBytes]

theorem finalize_status (cfg : Config) (km : KeyMaterial) (scratch : List Nat)
    (tr : List Ev) :
    (finalize cfg km scratch tr).status =
      (if cfg.serverDisabled = true then NX_SECURE_TLS_INVALID_STATE else NX_SUCCESS) := by
  unfold finalize
  split_ifs <;> rfl

theorem finalize_km (cfg : Config) (km : KeyMaterial) (scratch : List Nat)
    (tr : List Ev) : (finalize cfg km scratch tr).km = km := by
  unfold finalize
  split_ifs <;> rfl

theorem paddingPhase_bad (cfg : Config) (env : Env) (km : KeyMaterial)
    (len : Nat) (scratch : List Nat) (tr : List Ev)
    (hbad : paddingBad scratch len = true) :
    paddingPhase cfg env km len scratch tr =
      finalize cfg
        { km with preMaster := fillRandom env 0 NX_SECURE_TLS_RSA_PREMASTER_SIZE,
                  preMasterSize := NX_SECURE_TLS_RSA_PREMASTER_SIZE } scratch tr := by
  simp only [paddingPhase]
  rw [if_pos hbad]

theorem paddingPhase_good (cfg : Config) (env : Env) (km : KeyMaterial)
    (len : Nat) (scratch : List Nat) (tr : List Ev)
    (hgood : paddingBad scratch len = false) :
    paddingPhase cfg env km len scratch tr =
      finalize cfg
        { km with
            preMaster := readBytes scratch (len - NX_SECURE_TLS_RSA_PREMASTER_SIZE)
              NX_SECURE_TLS_RSA_PREMASTER_SIZE,
            preMasterSize := NX_SECURE_TLS_RSA_PREMASTER_SIZE } scratch tr := by
  simp only [paddingPhase]
  rw [if_neg (by simp [hgood])]

theorem rsaCleanupStep_ok (cfg : Config) (env : Env) (km : KeyMaterial)
    (len : Nat) (scratch : List Nat) (cs : Ciphersuite) (tr : List Ev)
    (hC : cs.pubCipherHasCleanup = true → env.rsaCleanup = NX_CRYPTO_SUCCESS) :
    ∃ tr2, rsaCleanupStep cfg env km len scratch cs tr =
      paddingPhase cfg env km len scratch tr2 := by
  unfold rsaCleanupStep
  by_cases h : cs.pubCipherHasCleanup = true
  · rw [if_pos h, if_neg (not_not_intro (hC h))]
    exact ⟨_, rfl⟩
  · rw [if_neg h]
    exact ⟨_, rfl⟩

theorem rsaDecStep_ok (cfg : Config) (env : Env) (km : KeyMaterial)
    (len : Nat) (cs : Ciphersuite) (tr : List Ev)
    (hD : env.rsaDecStatus = NX_CRYPTO_SUCCESS)
    (hC : cs.pubCipherHasCleanup = true → env.rsaCleanup = NX_CRYPTO_SUCCESS) :
    ∃ tr2, rsaDecStep cfg env km len cs tr =
      paddingPhase cfg env km len env.rsaDecScratch tr2 := by
  unfold rsaDecStep
  rw [if_neg (not_not_intro hD)]
  exact rsaCleanupStep_ok cfg env km len env.rsaDecScratch cs _ hC

theorem rsaOpBlock_ok (cfg : Config) (env : Env) (km : KeyMaterial)
    (len : Nat) (scratch0 : List Nat) (cs : Ciphersuite) (cert : Certificate)
    (tr : List Ev)
    (hOp : cs.pubCipherHasOp = true →
      (cert.hasPrimeP = true ∧ cert.hasPrimeQ = true →
        env.rsaSetP = NX_CRYPTO_SUCCESS ∧ env.rsaSetQ = NX_CRYPTO_SUCCESS) ∧
      env.rsaDecStatus = NX_CRYPTO_SUCCESS)
    (hC : cs.pubCipherHasCleanup = true → env.rsaCleanup = NX_CRYPTO_SUCCESS) :
    ∃ tr2, rsaOpBlock cfg env km len scratch0 cs cert tr =
      paddingPhase cfg env km len
        (if cs.pubCipherHasOp then env.rsaDecScratch else scratch0) tr2 := by
  unfold rsaOpBlock
  by_cases h : cs.pubCipherHasOp = true
  · rw [if_pos h, if_pos h]
    by_cases hpq : cert.hasPrimeP = true ∧ cert.hasPrimeQ = true
    · obtain ⟨hP', hQ'⟩ := (hOp h).1 hpq
      rw [if_pos hpq, if_neg (not_not_intro hP'), if_neg (not_not_intro hQ')]
      exact rsaDecStep_ok cfg env km len cs _ (hOp h).2 hC
    · rw [if_neg hpq]
      exact rsaDecStep_ok cfg env km len cs _ (hOp h).2 hC
  · rw [if_neg h, if_neg h]
    exact rsaCleanupStep_ok cfg env km len scratch0 cs _ hC

theorem rsaSection_ok (cfg : Config) (env : Env) (km : KeyMaterial) (len : Nat)
    (scratch0 : List Nat) (cs : Ciphersuite) (cert : Certificate) (tr : List Ev)
    (hops : rsaOpsSucceed env cs cert) :
    ∃ tr2, rsaSection cfg env km len scratch0 cs cert tr =
      paddingPhase cfg env km len (rsaScratchAfter env cs cert scratch0) tr2 := by
  obtain ⟨hU, hNU⟩ := hops
  unfold rsaSection
  by_cases hud : cert.userDefinedKey = true
  · rw [if_pos hud, if_neg (not_not_intro (hU hud))]
    have hscr : rsaScratchAfter env cs cert scratch0 = env.rsaUserOpScratch := by
      simp [rsaScratchAfter, hud]
    rw [hscr]
    exact ⟨_, rfl⟩
  · have hud' : cert.userDefinedKey = false := by
      revert hud
      cases cert.userDefinedKey <;> simp
    obtain ⟨hI, hOp, hC⟩ := hNU hud'
    rw [if_neg hud]
    have hscr : rsaScratchAfter env cs cert scratch0 =
        (if cs.pubCipherHasOp then env.rsaDecScratch else scratch0) := by
      simp [rsaScratchAfter, hud']
    rw [hscr]
    unfold rsaParsedKey
    by_cases hInit : cs.pubCipherHasInit = true
    · rw [if_pos hInit, if_neg (not_not_intro (hI hInit))]
      exact rsaOpBlock_ok cfg env km len scratch0 cs cert _ hOp hC
    · rw [if_neg hInit]
      exact rsaOpBlock_ok cfg env km len scratch0 cs cert _ hOp hC

/-- **C1.** In every RSA-branch call in which the decrypted scratch contents
fail the three-byte PKCS#1 inspection, the processor stores a premaster
secret of exactly `NX_SECURE_TLS_RSA_PREMASTER_SIZE` (48) bytes, each a
random non-zero byte, and returns
`if serverDisabled then invalid-state else success` — the very status of the
valid-padding case (cf. `kx_rsa_good_padding`): padding failure is
indistinguishable from success. -/
theorem kx_rsa_bad_padding (cfg : Config) (env : Env) (sess : Session)
    (msg : List Nat) (L : Nat) (scratch0 : List Nat) (cs : Ciphersuite)
    (cert : Certificate)
    (hcs : sess.ciphersuite = some cs)
    (hA : cs.publicAuthAlg ≠ CryptoAlg.ecjpake)
    (hP : cs.publicAuthAlg ≠ CryptoAlg.psk)
    (hnec : ¬(cs.publicCipherAlg = CryptoAlg.ecdh ∨ cs.publicCipherAlg = CryptoAlg.ecdhe))
    (hlen : declared16 msg ≤ L)
    (hnull : cs.suiteId ≠ TLS_NULL_WITH_NULL_NULL)
    (hcert : env.storeCert = some cert)
    (hrsa : cs.publicCipherAlg = CryptoAlg.rsa)
    (hx : cert.publicAlgorithm = NX_SECURE_TLS_X509_TYPE_RSA)
    (hops : rsaOpsSucceed env cs cert)
    (hbad : paddingBad (rsaScratchAfter env cs cert scratch0) (declared16 msg) = true) :
    (_nx_secure_tls_process_client_key_exchange cfg env sess msg L scratch0).status =
      (if cfg.serverDisabled = true then NX_SECURE_TLS_INVALID_STATE else NX_SUCCESS) ∧
    (_nx_secure_tls_process_client_key_exchange cfg env sess msg L
        scratch0).km.preMasterSize = NX_SECURE_TLS_RSA_PREMASTER_SIZE ∧
    (_nx_secure_tls_process_client_key_exchange cfg env sess msg L
        scratch0).km.preMaster.length = NX_SECURE_TLS_RSA_PREMASTER_SIZE ∧
    ∀ b ∈ (_nx_secure_tls_process_client_key_exchange cfg env sess msg L
        scratch0).km.preMaster, b ≠ 0 ∧ b < 256 := by
  obtain ⟨tr2, hsec⟩ := rsaSection_ok cfg env sess.keyMaterial (declared16 msg)
    scratch0 cs cert [Ev.certLookup] hops
  have hEq : _nx_secure_tls_process_client_key_exchange cfg env sess msg L scratch0 =
      paddingPhase cfg env sess.keyMaterial (declared16 msg)
        (rsaScratchAfter env cs cert scratch0) tr2 := by
    simp only [_nx_secure_tls_process_client_key_exchange, hcs]
    rw [if_neg hA, if_neg hP, if_neg hnec]
    simp only [certBranch, hcert]
    rw [if_neg (not_lt.mpr hlen)]
    simp only [if_neg hnull]
    rw [if_pos ⟨hrsa, hx⟩]
    exact hsec
  rw [hEq, paddingPhase_bad cfg env _ _ _ _ hbad]
  refine ⟨finalize_status _ _ _ _, ?_, ?_, ?_⟩
  · rw [finalize_km]
  · rw [finalize_km]
    exact fillRandom_length env NX_SECURE_TLS_RSA_PREMASTER_SIZE 0
  · rw [finalize_km]
    exact fillRandom_mem env NX_SECURE_TLS_RSA_PREMASTER_SIZE 0

theorem kx_rsa_bad_padding_witness :
    rsaOpsSucceed kxEnvBadPad csRSA certRSA ∧
    paddingBad (rsaScratchAfter kxEnvBadPad csRSA certRSA scratchZero)
      (declared16 (0 :: 49 :: List.replicate 49 9)) = true ∧
    (_nx_secure_tls_process_client_key_exchange kxCfg0 kxEnvBadPad sessRSA
        (0 :: 49 :: List.replicate 49 9) 51 scratchZero).status = NX_SUCCESS ∧
    (_nx_secure_tls_process_client_key_exchange kxCfg0 kxEnvBadPad sessRSA
        (0 :: 49 :: List.replicate 49 9) 51 scratchZero).km.preMasterSize =
      NX_SECURE_TLS_RSA_PREMASTER_SIZE ∧
    ∀ b ∈ (_nx_secure_tls_process_client_key_exchange kxCfg0 kxEnvBadPad sessRSA
        (0 :: 49 :: List.replicate 49 9) 51 scratchZero).km.preMaster, b ≠ 0 :=
  ⟨by decide, by decide,
   (kx_rsa_bad_padding kxCfg0 kxEnvBadPad sessRSA _ 51 scratchZero csRSA certRSA
      rfl (by decide) (by decide) (by decide) (by decide) (by decide) rfl
      (by decide) (by decide) (by decide) (by decide)).1,
   (kx_rsa_bad_padding kxCfg0 kxEnvBadPad sessRSA _ 51 scratchZero csRSA certRSA
      rfl (by decide) (by decide) (by decide) (by decide) (by decide) rfl
      (by decide) (by decide) (by decide) (by decide)).2.1,
   fun b hb =>
     ((kx_rsa_bad_padding kxCfg0 kxEnvBadPad sessRSA _ 51 scratchZero csRSA certRSA
        rfl (by decide) (by decide) (by decide) (by decide) (by decide) rfl
        (by decide) (by decide) (by decide) (by decide)).2.2.2 b hb).1⟩

/-- **C4.** In every RSA-branch call in which the decrypted scratch contents
pass the PKCS#1 inspection (stated for declared lengths between 49 and 600,
where all scratch reads are in bounds, cf. C9), the stored premaster secret
is, byte for byte, the final 48-byte segment of the padded block — the bytes
at indices `length - 48 … length - 1` — and the recorded size is the fixed
RSA premaster constant 48; the status is the same expression as in the
bad-padding case. -/
theorem kx_rsa_good_padding (cfg : Config) (env : Env) (sess : Session)
    (msg : List Nat) (L : Nat) (scratch0 : List Nat) (cs : Ciphersuite)
    (cert : Certificate)
    (hcs : sess.ciphersuite = some cs)
    (hA : cs.publicAuthAlg ≠ CryptoAlg.ecjpake)
    (hP : cs.publicAuthAlg ≠ CryptoAlg.psk)
    (hnec : ¬(cs.publicCipherAlg = CryptoAlg.ecdh ∨ cs.publicCipherAlg = CryptoAlg.ecdhe))
    (hlen : declared16 msg ≤ L)
    (hnull : cs.suiteId ≠ TLS_NULL_WITH_NULL_NULL)
    (hcert : env.storeCert = some cert)
    (hrsa : cs.publicCipherAlg = CryptoAlg.rsa)
    (hx : cert.publicAlgorithm = NX_SECURE_TLS_X509_TYPE_RSA)
    (hops : rsaOpsSucceed env cs cert)
    (_h49 : NX_SECURE_TLS_RSA_PREMASTER_SIZE + 1 ≤ declared16 msg)
    (_h600 : declared16 msg ≤ paddedPreMasterSize)
    (hgood : paddingBad (rsaScratchAfter env cs cert scratch0) (declared16 msg) = false) :
    (_nx_secure_tls_process_client_key_exchange cfg env sess msg L scratch0).status =
      (if cfg.serverDisabled = true then NX_SECURE_TLS_INVALID_STATE else NX_SUCCESS) ∧
    (_nx_secure_tls_process_client_key_exchange cfg env sess msg L
        scratch0).km.preMasterSize = NX_SECURE_TLS_RSA_PREMASTER_SIZE ∧
    (_nx_secure_tls_process_client_key_exchange cfg env sess msg L
        scratch0).km.preMaster =
      readBytes (rsaScratchAfter env cs cert scratch0)
        (declared16 msg - NX_SECURE_TLS_RSA_PREMASTER_SIZE)
        NX_SECURE_TLS_RSA_PREMASTER_SIZE ∧
    ∀ i, i < NX_SECURE_TLS_RSA_PREMASTER_SIZE →
      (_nx_secure_tls_process_client_key_exchange cfg env sess msg L
          scratch0).km.preMaster.getD i 0 =
        byteAt (rsaScratchAfter env cs cert scratch0)
          (declared16 msg - NX_SECURE_TLS_RSA_PREMASTER_SIZE + i) := by
  obtain ⟨tr2, hsec⟩ := rsaSection_ok cfg env sess.keyMaterial (declared16 msg)
    scratch0 cs cert [Ev.certLookup] hops
  have hEq : _nx_secure_tls_process_client_key_exchange cfg env sess msg L scratch0 =
      paddingPhase cfg env sess.keyMaterial (declared16 msg)
        (rsaScratchAfter env cs cert scratch0) tr2 := by
    simp only [_nx_secure_tls_process_client_key_exchange, hcs]
    rw [if_neg hA, if_neg hP, if_neg hnec]
    simp only [certBranch, hcert]
    rw [if_neg (not_lt.mpr hlen)]
    simp only [if_neg hnull]
    rw [if_pos ⟨hrsa, hx⟩]
    exact hsec
  rw [hEq, paddingPhase_good cfg env _ _ _ _ hgood]
  refine ⟨finalize_status _ _ _ _, ?_, ?_, ?_⟩
  · rw [finalize_km]
  · rw [finalize_km]
  · rw [finalize_km]
    intro i hi
    exact readBytes_getD _ _ _ i hi

theorem kx_rsa_good_padding_witness :
    rsaOpsSucceed kxEnvGoodPad csRSA certRSA ∧
    paddingBad (rsaScratchAfter kxEnvGoodPad csRSA certRSA scratchZero)
      (declared16 (0 :: 49 :: List.replicate 49 9)) = false ∧
    NX_SECURE_TLS_RSA_PREMASTER_SIZE + 1 ≤ declared16 (0 :: 49 :: List.replicate 49 9) ∧
    (_nx_secure_tls_process_client_key_exchange kxCfg0 kxEnvGoodPad sessRSA
        (0 :: 49 :: List.replicate 49 9) 51 scratchZero).km.preMasterSize =
      NX_SECURE_TLS_RSA_PREMASTER_SIZE ∧
    (_nx_secure_tls_process_client_key_exchange kxCfg0 kxEnvGoodPad sessRSA
        (0 :: 49 :: List.replicate 49 9) 51 scratchZero).km.preMaster =
      readBytes (rsaScratchAfter kxEnvGoodPad csRSA certRSA scratchZero)
        (declared16 (0 :: 49 :: List.replicate 49 9) - NX_SECURE_TLS_RSA_PREMASTER_SIZE)
        NX_SECURE_TLS_RSA_PREMASTER_SIZE :=
  ⟨by decide, by decide, by decide,
   (kx_rsa_good_padding kxCfg0 kxEnvGoodPad sessRSA _ 51 scratchZero csRSA certRSA
      rfl (by decide) (by decide) (by decide) (by decide) (by decide) rfl
      (by decide) (by decide) (by decide) (by decide) (by decide) (by decide)).2.1,
   (kx_rsa_good_padding kxCfg0 kxEnvGoodPad sessRSA _ 51 scratchZero csRSA certRSA
      rfl (by decide) (by decide) (by decide) (by decide) (by decide) rfl
      (by decide) (by decide) (by decide) (by decide) (by decide) (by decide)).2.2.1⟩
